import Mathlib

/-!
Verification of the trend-analytics, correction-submission and rendering logic
of the osm-coverage site against its specification.

Shallow-embedding conventions:
* JS numbers that only ever hold integral counts/percents are modelled as `Int`.
* ISO date strings (`YYYY-MM-DD`) are modelled as `Int` day numbers: the
  lexicographic order on well-formed ISO dates coincides with the chronological
  order, and `targetDate.setDate(latestDate.getDate() - days)` followed by
  `toISOString().split('T')[0]` is exactly subtraction of `days` day numbers.
* A JS object field that may be `undefined` is an `Option`; a field read
  `x !== undefined ? x : y` is a `match` on that `Option`, `x ?? y` likewise,
  and `x || y` additionally sends the falsy number `0` (resp. the empty
  string) to `y`.
-/

/-- One entry of a persisted history series (`detailed_history.json`).
Canonical field names are `total` / `missing` / `coverage`; the legacy
names `alkis` / `missing_count` / `coverage_percent` also occur, so every
numeric field is optional, mirroring the JS objects. -/
structure HEntry where
  date : Int
  total : Option Int := none
  alkis : Option Int := none
  missing : Option Int := none
  missing_count : Option Int := none
  coverage : Option Int := none
  coverage_percent : Option Int := none
deriving Repr, DecidableEq

instance : Inhabited HEntry := ⟨{ date := 0 }⟩

/-- The history file shape `{ global, districts }` as consumed by the UI;
`historyData.districts || {}` makes both fields optional. -/
structure HistoryData where
  global : Option (List HEntry) := none
  districts : Option (List (String × List HEntry)) := none
deriving Repr

/-- JS `a || b` on an optional number: a present non-zero value wins,
`0`, `null` and `undefined` fall through to `b`. -/
def jsOrNum (a : Option Int) (b : Int) : Int :=
  match a with
  | some x => if x = 0 then b else x
  | none => b

/-- JS `a || b` where `b` itself may be `undefined` (used by the chart
mapping `h.coverage || h.coverage_percent`). -/
def jsOrOpt (a : Option Int) (b : Option Int) : Option Int :=
  match a with
  | some x => if x = 0 then b else some x
  | none => b

/-- The missing-count read of `updateComparisonChart` (src/unnamed/part_007):
`h.missing !== undefined ? h.missing : (h.missing_count || 0)`. -/
def getMissingUCC (h : HEntry) : Int :=
  match h.missing with
  | some v => v
  | none => jsOrNum h.missing_count 0

/-- The missing-count read of `calculateGlobalDiff` (src/unnamed/part_007):
`h.missing ?? h.missing_count ?? 0`. -/
def getMissingQQ (h : HEntry) : Int :=
  (h.missing.getD (h.missing_count.getD 0))

/-- The window-mode-to-days table, computed identically at the start of
`updateComparisonChart` and of `calculateGlobalDiff`:
`let days = 7; if (mode === 'top30') days = 30; if (mode === 'top1') days = 1;`. -/
def modeDays (mode : String) : Int :=
  if mode = "top30" then 30 else if mode = "top1" then 1 else 7

/-- One bar of the "most improved" ranking, as pushed onto `improvers`. -/
structure Improver where
  name : String
  delta : Int
  currentMissing : Int
  pastMissing : Int
deriving Repr, DecidableEq

/-- The per-district body of the `Object.keys(districts).forEach` loop in
`updateComparisonChart` (src/unnamed/part_007 lines 186-217): districts with
fewer than two entries are skipped; otherwise `latest = dHist[dHist.length-1]`,
`targetDateStr = latest.date - days`, `past = dHist.find(h => h.date >=
targetDateStr) ?? dHist[0]`, and the improvement is
`delta = pastMissing - currentMissing`. -/
def improverFor (name : String) (dHist : List HEntry) (days : Int) : Option Improver :=
  if dHist.length < 2 then none else
  match dHist.getLast? with
  | none => none
  | some latest =>
    let targetDate := latest.date - days
    let past := (dHist.find? (fun h => decide (targetDate ≤ h.date))).getD dHist.headI
    let currentMissing := getMissingUCC latest
    let pastMissing := getMissingUCC past
    some { name := name.replace "_" " "
         , delta := pastMissing - currentMissing
         , currentMissing := currentMissing
         , pastMissing := pastMissing }

/-- The data shown by the top-improvers bar chart of `updateComparisonChart`:
the `improvers` list collected over all districts, sorted descending by
`delta` (`improvers.sort((a, b) => b.delta - a.delta)`) and truncated to the
top ten (`improvers.slice(0, 10)`). -/
def updateComparisonChartTop10 (historyData : HistoryData) (mode : String) : List Improver :=
  let districts := historyData.districts.getD []
  let days := modeDays mode
  let improvers := districts.filterMap (fun p => improverFor p.1 p.2 days)
  (List.insertionSort (fun a b => b.delta ≤ a.delta) improvers).take 10

/-- `calculateGlobalDiff` (src/unnamed/part_007 lines 257-281): the headline
delta over the global series, `0` when the history or its global series is
absent or has fewer than two entries. -/
def calculateGlobalDiff (historyData : Option HistoryData) (mode : String) : Int :=
  match historyData with
  | none => 0
  | some hd =>
    match hd.global with
    | none => 0
    | some globalHist =>
      let days := modeDays mode
      if globalHist.length < 2 then 0 else
      match globalHist.getLast? with
      | none => 0
      | some latest =>
        let targetDate := latest.date - days
        let past := (globalHist.find? (fun h => decide (targetDate ≤ h.date))).getD globalHist.headI
        getMissingQQ past - getMissingQQ latest

/-- The rolling-delta rule stated by the spec (§4.7), written from the spec's
words for comparison with the code: `current = series.last()`,
`target_date = current.date - window_days`, `past = first entry in series with
date >= target_date` scanning ascending, falling back to `series.first()`,
`delta = past.missing - current.missing`. Spec entries carry a canonical
`missing` field, read here with default `0`. -/
def rollingDeltaSpec (series : List HEntry) (days : Int) : Option Int :=
  match series.getLast? with
  | none => none
  | some current =>
    let target := current.date - days
    let past := (series.find? (fun h => decide (target ≤ h.date))).getD series.headI
    some (past.missing.getD 0 - current.missing.getD 0)

lemma getMissingUCC_eq_getMissingQQ (h : HEntry) : getMissingUCC h = getMissingQQ h := by
  unfold getMissingUCC getMissingQQ jsOrNum
  cases h.missing with
  | some v => rfl
  | none =>
    cases h.missing_count with
    | some w => by_cases hw : w = 0 <;> simp [hw]
    | none => rfl

lemma getMissingUCC_canonical (h : HEntry) (hc : h.missing.isSome) :
    getMissingUCC h = h.missing.getD 0 := by
  obtain ⟨v, hv⟩ := Option.isSome_iff_exists.mp hc
  simp [getMissingUCC, hv]

lemma getMissingQQ_canonical (h : HEntry) (hc : h.missing.isSome) :
    getMissingQQ h = h.missing.getD 0 := by
  rw [← getMissingUCC_eq_getMissingQQ]
  exact getMissingUCC_canonical h hc

/-- The entry picked as `past` belongs to the series when the series is
nonempty. -/
lemma past_mem (series : List HEntry) (p : HEntry → Bool) (hne : series ≠ []) :
    (series.find? p).getD series.headI ∈ series := by
  cases hfind : series.find? p with
  | some x =>
    simpa using List.mem_of_find?_eq_some hfind
  | none =>
    cases series with
    | nil => exact absurd rfl hne
    | cons a t => simp [List.headI]

lemma improverFor_eq_spec (name : String) (series : List HEntry) (days : Int)
    (h2 : 2 ≤ series.length) (hc : ∀ h ∈ series, h.missing.isSome) :
    (improverFor name series days).map Improver.delta = rollingDeltaSpec series days := by
  have hne : series ≠ [] := by
    intro h
    subst h
    simp at h2
  have hlt : ¬ series.length < 2 := by omega
  obtain ⟨latest, hlast⟩ : ∃ l, series.getLast? = some l := by
    cases hl : series.getLast? with
    | none => simp_all
    | some l => exact ⟨l, rfl⟩
  have hmemL : latest ∈ series := List.mem_of_getLast?_eq_some hlast
  have hmemP :
      (series.find? (fun h => decide (latest.date - days ≤ h.date))).getD series.headI
        ∈ series := past_mem series _ hne
  unfold improverFor rollingDeltaSpec
  rw [if_neg hlt, hlast]
  simp only [Option.map_some']
  rw [getMissingUCC_canonical _ (hc _ hmemL), getMissingUCC_canonical _ (hc _ hmemP)]

lemma modeDays_nonneg (mode : String) : 0 ≤ modeDays mode := by
  unfold modeDays
  split
  · norm_num
  · split <;> norm_num

lemma calcGlobalDiff_eq_spec (hd : HistoryData) (g : List HEntry) (mode : String)
    (hg : hd.global = some g) (hne : g ≠ []) (hc : ∀ h ∈ g, h.missing.isSome) :
    some (calculateGlobalDiff (some hd) mode) = rollingDeltaSpec g (modeDays mode) := by
  obtain ⟨latest, hlast⟩ : ∃ l, g.getLast? = some l := by
    cases hl : g.getLast? with
    | none => simp_all
    | some l => exact ⟨l, rfl⟩
  have hmemL : latest ∈ g := List.mem_of_getLast?_eq_some hlast
  have hmemP :
      (g.find? (fun h => decide (latest.date - modeDays mode ≤ h.date))).getD g.headI
        ∈ g := past_mem g _ hne
  simp only [calculateGlobalDiff, rollingDeltaSpec, hg, hlast]
  by_cases hlen : g.length < 2
  · -- a singleton series: the code returns 0, and the spec rule picks
    -- past = current, so its delta is also 0
    rw [if_pos hlen]
    have hpos : 0 < g.length := List.length_pos.mpr hne
    have h1 : g.length = 1 := by omega
    obtain ⟨e, he⟩ : ∃ e, g = [e] := by
      cases g with
      | nil => exact absurd rfl hne
      | cons a t =>
        cases t with
        | nil => exact ⟨a, rfl⟩
        | cons b u => simp at h1
    subst he
    obtain rfl : e = latest := by simpa using hlast
    have hfind : [e].find? (fun h => decide (e.date - modeDays mode ≤ h.date))
        = some e := by
      have hle : (e.date - modeDays mode ≤ e.date) := by
        have := modeDays_nonneg mode
        omega
      simp [List.find?, hle]
    rw [hfind]
    simp
  · rw [if_neg hlen]
    rw [getMissingQQ_canonical _ (hc _ hmemL), getMissingQQ_canonical _ (hc _ hmemP)]

instance : IsTotal Improver (fun a b => b.delta ≤ a.delta) :=
  ⟨fun a b => le_total b.delta a.delta⟩

instance : IsTrans Improver (fun a b => b.delta ≤ a.delta) :=
  ⟨fun _ _ _ hab hbc => le_trans hbc hab⟩

/-- C1: for every ascending district history series with canonical `missing`
fields, the N-day trend delta is computed exactly by the spec rule: current =
last entry, target date = current date minus N days, past = first entry at or
after the target date (falling back to the first entry), delta = past.missing
- current.missing; in particular with a 7-day window on days [0, 3, 10] the
past entry is the day-3 entry and the delta is day3.missing - day10.missing. -/
theorem trend_delta_follows_spec :
    (∀ (name : String) (series : List HEntry) (mode : String),
        2 ≤ series.length →
        series.Pairwise (fun a b => a.date ≤ b.date) →
        (∀ h ∈ series, h.missing.isSome) →
        (improverFor name series (modeDays mode)).map Improver.delta
          = rollingDeltaSpec series (modeDays mode))
    ∧ (∀ (hd : HistoryData) (g : List HEntry) (mode : String),
        hd.global = some g → g ≠ [] →
        g.Pairwise (fun a b => a.date ≤ b.date) →
        (∀ h ∈ g, h.missing.isSome) →
        some (calculateGlobalDiff (some hd) mode) = rollingDeltaSpec g (modeDays mode))
    ∧ (∀ m0 m3 m10 : Int,
        (improverFor "d"
            [{ date := 0, missing := some m0 },
             { date := 3, missing := some m3 },
             { date := 10, missing := some m10 }] 7).map Improver.delta
          = some (m3 - m10)) := by
  refine ⟨?_, ?_, ?_⟩
  · intro name series mode h2 _ hc
    exact improverFor_eq_spec name series (modeDays mode) h2 hc
  · intro hd g mode hg hne _ hc
    exact calcGlobalDiff_eq_spec hd g mode hg hne hc
  · intro m0 m3 m10
    rfl

/-- Closed instance of `trend_delta_follows_spec`. -/
theorem trend_delta_follows_spec_check :
    (improverFor "d"
        [{ date := 0, missing := some 9 },
         { date := 3, missing := some 7 },
         { date := 10, missing := some 4 }] (modeDays "top7")).map Improver.delta
      = rollingDeltaSpec
          [{ date := 0, missing := some 9 },
           { date := 3, missing := some 7 },
           { date := 10, missing := some 4 }] (modeDays "top7") :=
  trend_delta_follows_spec.1 "d"
    [{ date := 0, missing := some 9 },
     { date := 3, missing := some 7 },
     { date := 10, missing := some 4 }] "top7"
    (by decide) (by decide) (by decide)

/-- C2: the "most improved" view computes a delta per district, sorts the
districts descending by delta, and truncates to at most the top 10: the bar
chart data is the 10-element prefix of a descending-sorted permutation of the
per-district improvement records. -/
theorem most_improved_ranking (hd : HistoryData) (mode : String) :
    ∃ sorted : List Improver,
      sorted.Perm
          ((hd.districts.getD []).filterMap (fun p => improverFor p.1 p.2 (modeDays mode)))
      ∧ sorted.Sorted (fun a b => b.delta ≤ a.delta)
      ∧ updateComparisonChartTop10 hd mode = sorted.take 10
      ∧ (updateComparisonChartTop10 hd mode).length ≤ 10 := by
  refine ⟨List.insertionSort (fun a b => b.delta ≤ a.delta)
      ((hd.districts.getD []).filterMap (fun p => improverFor p.1 p.2 (modeDays mode))),
    List.perm_insertionSort _ _, List.sorted_insertionSort _ _, ?_, ?_⟩
  · rfl
  · unfold updateComparisonChartTop10
    simp only [List.length_take]
    omega

/-- C9: the global headline delta is computed by the same rule as the
per-district delta: on any series with at least two entries (and any window
mode), `calculateGlobalDiff` returns exactly the delta the per-district
improvement computation of `updateComparisonChart` produces for that series. -/
theorem global_diff_matches_district_delta
    (g : List HEntry) (mode name : String) (ds : Option (List (String × List HEntry)))
    (h2 : 2 ≤ g.length) :
    (improverFor name g (modeDays mode)).map Improver.delta
      = some (calculateGlobalDiff (some { global := some g, districts := ds }) mode) := by
  have hne : g ≠ [] := by
    intro h
    subst h
    simp at h2
  have hlt : ¬ g.length < 2 := by omega
  obtain ⟨latest, hlast⟩ : ∃ l, g.getLast? = some l := by
    cases hl : g.getLast? with
    | none => simp_all
    | some l => exact ⟨l, rfl⟩
  simp only [improverFor, calculateGlobalDiff, hlast, if_neg hlt, Option.map_some']
  rw [getMissingUCC_eq_getMissingQQ, getMissingUCC_eq_getMissingQQ]

/-- Closed instance of `global_diff_matches_district_delta`. -/
theorem global_diff_matches_district_delta_check :
    (improverFor "d"
        [{ date := 0, missing := some 9 }, { date := 10, missing := some 4 }]
        (modeDays "top7")).map Improver.delta
      = some (calculateGlobalDiff
          (some { global := some [{ date := 0, missing := some 9 },
                                  { date := 10, missing := some 4 }],
                  districts := none }) "top7") :=
  global_diff_matches_district_delta
    [{ date := 0, missing := some 9 }, { date := 10, missing := some 4 }]
    "top7" "d" none (by decide)

/-- C10: a series with fewer than two entries produces no trend result: such a
district is skipped by the improvement loop (and so never appears in the
most-improved ranking), and the global headline delta is 0 whenever the global
series has fewer than two entries (or the history is absent). -/
theorem short_series_no_trend :
    (∀ (name : String) (dHist : List HEntry) (days : Int),
        dHist.length < 2 → improverFor name dHist days = none)
    ∧ (∀ (name mode : String) (dHist : List HEntry) (g : Option (List HEntry)),
        dHist.length < 2 →
        updateComparisonChartTop10 { global := g, districts := some [(name, dHist)] } mode
          = [])
    ∧ (∀ (hd : HistoryData) (g : List HEntry) (mode : String),
        hd.global = some g → g.length < 2 → calculateGlobalDiff (some hd) mode = 0)
    ∧ (∀ mode : String, calculateGlobalDiff none mode = 0) := by
  refine ⟨?_, ?_, ?_, ?_⟩
  · intro name dHist days hlen
    unfold improverFor
    rw [if_pos hlen]
  · intro name mode dHist g hlen
    unfold updateComparisonChartTop10
    simp only [Option.getD_some, List.filterMap]
    have h0 : improverFor name dHist (modeDays mode) = none := by
      unfold improverFor
      rw [if_pos hlen]
    simp [h0]
  · intro hd g mode hg hlen
    simp only [calculateGlobalDiff, hg, if_pos hlen]
  · intro mode
    rfl

/-- Closed instance of `short_series_no_trend`. -/
theorem short_series_no_trend_check :
    improverFor "d" [{ date := 0, missing := some 9 }] 7 = none
    ∧ updateComparisonChartTop10
        { global := none, districts := some [("d", [{ date := 0, missing := some 9 }])] }
        "top7" = []
    ∧ calculateGlobalDiff
        (some { global := some [{ date := 0, missing := some 9 }], districts := none })
        "top7" = 0 :=
  ⟨short_series_no_trend.1 "d" [{ date := 0, missing := some 9 }] 7 (by decide),
   short_series_no_trend.2.1 "d" "top7" [{ date := 0, missing := some 9 }] none (by decide),
   short_series_no_trend.2.2.1
     { global := some [{ date := 0, missing := some 9 }], districts := none }
     [{ date := 0, missing := some 9 }] "top7" rfl (by decide)⟩

/-- The three variants offered by the correction modal's type selector
(`single` = point correction, `street`, `ignore`). -/
inductive CorrType where
  | single
  | street
  | ignore
deriving Repr, DecidableEq

/-- A correction object as assembled by `CorrectionModal.submit`
(src/site/src/addresses.js); absent JS fields are `none`. -/
structure Correction where
  from_street : Option String := none
  from_housenumber : Option String := none
  to_street : Option String := none
  to_housenumber : Option String := none
  city : Option String := none
  comment : Option String := none
  ignore : Bool := false
  alkis_id : Option String := none
  reference_alkis_id : Option String := none
deriving Repr, DecidableEq

/-- The state the modal's `submit` reads: the clicked address (`this.street`,
`this.hnr`, `this.alkisId`), the current input values, and the module-level
`currentDistrictName` that becomes `correction.city`. -/
structure SubmitForm where
  corrType : CorrType
  street : String
  hnr : String
  alkisId : Option String := none
  inputSingleStreet : String
  inputSingleHnr : String
  inputStreetAll : String
  inputComment : String
  currentDistrictName : String
deriving Repr, DecidableEq

/-- Outcome of a submit click: a validation message shown in `corr-msg` (and
no request made), or a POST of the assembled correction to
`/api/save_correction`. -/
inductive SubmitResult where
  | rejected (msg : String)
  | sent (c : Correction)
deriving Repr, DecidableEq

def SubmitResult.isRejected : SubmitResult → Bool
  | .rejected _ => true
  | .sent _ => false

/-- JS `String.prototype.trim`: strip whitespace from both ends. Written over
the character list so that it evaluates by kernel reduction (`String.trim`
itself is defined through `Substring` loops that do not reduce). -/
def jsTrim (s : String) : String :=
  ⟨((s.data.dropWhile Char.isWhitespace).reverse.dropWhile Char.isWhitespace).reverse⟩

/-- JS truthiness of an optional string: `undefined` and `""` are falsy. -/
def jsStr (o : Option String) : Option String :=
  match o with
  | some a => if a = "" then none else some a
  | none => none

/-- `CorrectionModal.submit` (src/site/src/addresses.js lines 170-265): trims
the comment and rejects when it is empty; for a street correction rejects an
empty or unchanged corrected street name; for a point (`single`) correction
rejects empty street/housenumber inputs and an unchanged address; an ignore
correction needs no further fields. On success the assembled correction is
POSTed. -/
def submit (f : SubmitForm) : SubmitResult :=
  let comment := jsTrim f.inputComment
  if comment = "" then .rejected "Kommentar fehlt."
  else
    match f.corrType with
    | .street =>
      let toStreet := jsTrim f.inputStreetAll
      if toStreet = "" then .rejected "Korrigierter Straßenname fehlt."
      else if toStreet = f.street then .rejected "Bitte korrigierten Straßennamen eingeben."
      else .sent { comment := some comment
                 , from_street := some f.street
                 , city := some f.currentDistrictName
                 , to_street := some toStreet
                 , reference_alkis_id := jsStr f.alkisId }
    | .single =>
      let newStreet := jsTrim f.inputSingleStreet
      let newHnr := jsTrim f.inputSingleHnr
      if newStreet = "" ∨ newHnr = "" then
        .rejected "Straße und Hausnummer dürfen nicht leer sein."
      else if newStreet = f.street ∧ newHnr = f.hnr then
        .rejected "Bitte korrigierte Adresse eingeben."
      else .sent { comment := some comment
                 , alkis_id := jsStr f.alkisId
                 , from_street := some f.street
                 , from_housenumber := some f.hnr
                 , city := some f.currentDistrictName
                 , to_street := some newStreet
                 , to_housenumber := some newHnr }
    | .ignore =>
      .sent { comment := some comment
            , alkis_id := jsStr f.alkisId
            , from_street := some f.street
            , from_housenumber := some f.hnr
            , city := some f.currentDistrictName
            , ignore := true }

/-- Result of the correction store's `append`. -/
inductive StoreResult where
  | appended (c : Correction)
  | validationError (field : String)
deriving Repr, DecidableEq

def StoreResult.isError : StoreResult → Bool
  | .appended _ => false
  | .validationError _ => true

/-- Modelled from the spec: the CorrectionStore backend behind
`/api/save_correction` is not part of this repository (only its client caller
is); spec §4.2 specifies `append(correction)` "with validation — rejects a
correction missing required fields for its variant, fails with
ValidationError if city is absent". -/
def storeAppend (c : Correction) : StoreResult :=
  if c.city.isNone then .validationError "city"
  else if c.ignore then
    if c.from_street.isNone ∨ c.from_housenumber.isNone then .validationError "from"
    else .appended c
  else if c.from_housenumber.isSome then
    if c.to_street.isNone ∨ c.to_housenumber.isNone then .validationError "to"
    else .appended c
  else
    if c.to_street.isNone then .validationError "to_street" else .appended c

/-- C3: a street-correction submission with an absent (empty after trimming)
corrected street name is rejected, a point-correction submission with an
absent corrected street or housenumber is rejected, and appending a
correction whose city field is absent fails with a validation error. -/
theorem correction_submit_validation :
    (∀ f : SubmitForm, f.corrType = .street → jsTrim f.inputStreetAll = "" →
        (submit f).isRejected = true)
    ∧ (∀ f : SubmitForm, f.corrType = .single →
        (jsTrim f.inputSingleStreet = "" ∨ jsTrim f.inputSingleHnr = "") →
        (submit f).isRejected = true)
    ∧ (∀ c : Correction, c.city = none → (storeAppend c).isError = true) := by
  refine ⟨?_, ?_, ?_⟩
  · intro f ht hs
    unfold submit
    by_cases hcm : jsTrim f.inputComment = ""
    · simp [hcm, SubmitResult.isRejected]
    · simp [hcm, ht, hs, SubmitResult.isRejected]
  · intro f ht hs
    unfold submit
    by_cases hcm : jsTrim f.inputComment = ""
    · simp [hcm, SubmitResult.isRejected]
    · simp only [if_neg hcm, ht]
      rw [if_pos hs]
      rfl
  · intro c hc
    unfold storeAppend
    simp [hc, StoreResult.isError]

/-- Closed instance of `correction_submit_validation`. -/
theorem correction_submit_validation_check :
    (submit { corrType := .street, street := "A", hnr := "1",
              inputSingleStreet := "A", inputSingleHnr := "1",
              inputStreetAll := " ", inputComment := "typo",
              currentDistrictName := "X" }).isRejected = true
    ∧ (submit { corrType := .single, street := "A", hnr := "1",
                inputSingleStreet := "", inputSingleHnr := "2",
                inputStreetAll := "A", inputComment := "typo",
                currentDistrictName := "X" }).isRejected = true
    ∧ (storeAppend { from_street := some "A", from_housenumber := some "1",
                     ignore := true }).isError = true :=
  ⟨correction_submit_validation.1 _ rfl (by decide),
   correction_submit_validation.2.1 _ rfl (Or.inl (by decide)),
   correction_submit_validation.2.2 _ rfl⟩

/-- C4 counterexample: a submission that omits the free-text comment is NOT
accepted: for each of the three variants, a form with an empty comment and
otherwise valid fields is rejected at submission time with "Kommentar fehlt."
and nothing is sent to the correction store. -/
theorem comment_required_counterexample :
    submit { corrType := .ignore, street := "A", hnr := "1",
             inputSingleStreet := "A", inputSingleHnr := "1",
             inputStreetAll := "A", inputComment := "",
             currentDistrictName := "X" }
      = .rejected "Kommentar fehlt."
    ∧ submit { corrType := .single, street := "A", hnr := "1",
               inputSingleStreet := "B", inputSingleHnr := "2",
               inputStreetAll := "A", inputComment := "",
               currentDistrictName := "X" }
      = .rejected "Kommentar fehlt."
    ∧ submit { corrType := .street, street := "A", hnr := "1",
               inputSingleStreet := "A", inputSingleHnr := "1",
               inputStreetAll := "B", inputComment := "",
               currentDistrictName := "X" }
      = .rejected "Kommentar fehlt." := by
  refine ⟨?_, ?_, ?_⟩ <;> rfl

/-- C4 amended: the free-text comment is required for every correction
variant: any submission whose trimmed comment is empty is rejected at
submission time (never sent to the correction store). -/
theorem comment_required (f : SubmitForm) (hc : jsTrim f.inputComment = "") :
    (submit f).isRejected = true := by
  unfold submit
  simp [hc, SubmitResult.isRejected]

/-- Closed instance of `comment_required`. -/
theorem comment_required_check :
    (submit { corrType := .ignore, street := "A", hnr := "1",
              inputSingleStreet := "A", inputSingleHnr := "1",
              inputStreetAll := "A", inputComment := " ",
              currentDistrictName := "X" }).isRejected = true :=
  comment_required _ (by decide)

/-- The per-record match outcome classification of the spec (§3). -/
inductive Classification where
  | Unmatched
  | MatchedPlain
  | MatchedViaCorrection
  | IgnoredViaCorrection
deriving Repr, DecidableEq

/-- Modelled from the spec: the Matcher that writes the per-feature `matched`
property is not part of this repository (the batch engine is external to
src/); spec §3/§4.4 fix `matched = true` for every classification except
`Unmatched` — in particular "classification = IgnoredViaCorrection implies
matched = true". -/
def classificationMatched : Classification → Bool
  | .Unmatched => false
  | .MatchedPlain => true
  | .MatchedViaCorrection => true
  | .IgnoredViaCorrection => true

/-- Modelled from the spec: the `correction_type` GeoJSON property
(`ignored | corrected | null`, spec §6) written by the external batch engine. -/
def classificationCorrectionType : Classification → Option String
  | .Unmatched => none
  | .MatchedPlain => none
  | .MatchedViaCorrection => some "corrected"
  | .IgnoredViaCorrection => some "ignored"

/-- The feature properties the renderer reads (spec §6 contract). -/
structure Feature where
  matched : Bool
  correction_type : Option String := none
deriving Repr, DecidableEq

/-- The feature a classified record is rendered as. -/
def featureOf (cl : Classification) : Feature :=
  { matched := classificationMatched cl
  , correction_type := classificationCorrectionType cl }

/-- The displayed missing count of `loadDistrict`
(src/site/src/addresses.js line 545):
`data.features.filter(f => !f.properties.matched).length`. -/
def missingCount (features : List Feature) : Nat :=
  (features.filter (fun f => !f.matched)).length

/-- The total number of features of a district collection. -/
def totalCount (features : List Feature) : Nat :=
  features.length

/-- C5: the displayed missing count is the number of features whose `matched`
property is false, and an ignored-via-correction feature carries
`matched = true`, so it is excluded from the missing count while still
counting toward the total. -/
theorem missing_count_excludes_ignored :
    (∀ features : List Feature,
        missingCount features = features.countP (fun f => f.matched = false))
    ∧ (featureOf .IgnoredViaCorrection).matched = true
    ∧ (∀ before after : List Feature,
        missingCount (before ++ featureOf .IgnoredViaCorrection :: after)
          = missingCount (before ++ after)
        ∧ totalCount (before ++ featureOf .IgnoredViaCorrection :: after)
          = totalCount (before ++ after) + 1) := by
  refine ⟨?_, rfl, ?_⟩
  · intro features
    unfold missingCount
    rw [← List.countP_eq_length_filter]
    simp
  · intro before after
    constructor
    · unfold missingCount
      simp [List.filter_append, featureOf, classificationMatched]
    · unfold totalCount
      simp
      omega

/-- `isValid` (src/site/src/addresses.js lines 367-369): a property value is
valid when it is present and none of the pandas placeholder strings. -/
def isValid (val : Option String) : Bool :=
  match val with
  | none => false
  | some s => !(s = "<NA>" || s = "nan" || s = "")

/-- The marker fill color chosen by `pointToLayer` in `loadDistrict`
(src/site/src/addresses.js lines 438-457): gray for an ignored correction,
blue for a corrected match, purple for a corrected non-match, green for a
plain match, red otherwise. -/
def markerColor (correction_type : Option String) (matched : Bool) : String :=
  if isValid correction_type then
    if correction_type = some "ignored" then "#9ca3af"
    else if matched then "#3b82f6"
    else "#8b5cf6"
  else if matched then "#10b981"
  else "#ff4444"

/-- C6: the marker color is a function of `(correction_type, matched)` giving
each classification state its own color — ignored gray, corrected-and-matched
blue, corrected-but-unmatched purple, matched-without-correction green,
unmatched red — and the five colors are pairwise distinct, so ignored records
are rendered distinctly from genuine matches. -/
theorem marker_color_distinguishes_states :
    (∀ m : Bool, markerColor (some "ignored") m = "#9ca3af")
    ∧ markerColor (some "corrected") true = "#3b82f6"
    ∧ markerColor (some "corrected") false = "#8b5cf6"
    ∧ markerColor none true = "#10b981"
    ∧ markerColor none false = "#ff4444"
    ∧ (∀ m : Bool,
        markerColor ((featureOf .IgnoredViaCorrection).correction_type) m
          = "#9ca3af")
    ∧ List.Pairwise (fun a b => a ≠ b)
        ["#9ca3af", "#3b82f6", "#8b5cf6", "#10b981", "#ff4444"] := by
  refine ⟨fun m => ?_, rfl, rfl, rfl, rfl, fun m => ?_, by decide⟩
  · cases m <;> rfl
  · cases m <;> rfl

/-- The total read of `renderHistoryTable` (src/unnamed/part_007 line 109):
`h.total !== undefined ? h.total : (h.alkis !== undefined ? h.alkis : 0)`. -/
def tableTotal (h : HEntry) : Int :=
  match h.total with
  | some t => t
  | none =>
    match h.alkis with
    | some a => a
    | none => 0

/-- The missing read of `renderHistoryTable` (line 110). -/
def tableMissing (h : HEntry) : Int :=
  match h.missing with
  | some m => m
  | none =>
    match h.missing_count with
    | some m => m
    | none => 0

/-- The coverage read of `renderHistoryTable` (line 111). -/
def tableCoverage (h : HEntry) : Int :=
  match h.coverage with
  | some c => c
  | none =>
    match h.coverage_percent with
    | some c => c
    | none => 0

/-- The chart data mapping of `initHistoryChart` / `updateChart`
(src/unnamed/part_007 lines 18 and 92): `h.coverage || h.coverage_percent`. -/
def chartCoverage (h : HEntry) : Option Int :=
  jsOrOpt h.coverage h.coverage_percent

/-- A history entry in the canonical schema (`total`/`missing`/`coverage`). -/
def canonEntry (d t m c : Int) : HEntry :=
  { date := d, total := some t, missing := some m, coverage := some c }

/-- The same entry in the legacy schema
(`alkis`/`missing_count`/`coverage_percent`). -/
def legacyEntry (d t m c : Int) : HEntry :=
  { date := d, alkis := some t, missing_count := some m, coverage_percent := some c }

/-- C7 counterexample: the two representations are NOT interchangeable at
every read site: for an entry with coverage value 0, the chart data mapping
`h.coverage || h.coverage_percent` yields `undefined` on the canonical
representation (JS `||` treats the number 0 as falsy) but 0 on the legacy
representation. -/
theorem legacy_schema_counterexample :
    chartCoverage (canonEntry 0 100 5 0) = none
    ∧ chartCoverage (legacyEntry 0 100 5 0) = some 0
    ∧ chartCoverage (canonEntry 0 100 5 0) ≠ chartCoverage (legacyEntry 0 100 5 0) := by
  refine ⟨rfl, rfl, by decide⟩

/-- C7 amended: the canonical and legacy representations of the same entry
agree at the history-table read sites and at both delta-computation read
sites for all values, and at the chart data mapping whenever the coverage
value is non-zero (at coverage 0 the canonical form maps to `undefined` and
the legacy form to 0, because JS `||` treats 0 as falsy). -/
theorem legacy_schema_interchangeable :
    (∀ d t m c : Int,
        tableTotal (canonEntry d t m c) = tableTotal (legacyEntry d t m c)
        ∧ tableMissing (canonEntry d t m c) = tableMissing (legacyEntry d t m c)
        ∧ tableCoverage (canonEntry d t m c) = tableCoverage (legacyEntry d t m c)
        ∧ getMissingUCC (canonEntry d t m c) = getMissingUCC (legacyEntry d t m c)
        ∧ getMissingQQ (canonEntry d t m c) = getMissingQQ (legacyEntry d t m c))
    ∧ (∀ d t m c : Int, c ≠ 0 →
        chartCoverage (canonEntry d t m c) = chartCoverage (legacyEntry d t m c)) := by
  constructor
  · intro d t m c
    refine ⟨rfl, rfl, rfl, ?_, rfl⟩
    unfold getMissingUCC jsOrNum canonEntry legacyEntry
    by_cases hm : m = 0 <;> simp [hm]
  · intro d t m c hc
    unfold chartCoverage jsOrOpt canonEntry legacyEntry
    simp [hc]

/-- Closed instance of `legacy_schema_interchangeable`. -/
theorem legacy_schema_interchangeable_check :
    chartCoverage (canonEntry 1 200 7 33) = chartCoverage (legacyEntry 1 200 7 33)
    ∧ tableMissing (canonEntry 1 200 7 33) = tableMissing (legacyEntry 1 200 7 33) :=
  ⟨legacy_schema_interchangeable.2 1 200 7 33 (by decide),
   (legacy_schema_interchangeable.1 1 200 7 33).2.1⟩

/-- One row of the persisted district list (`districts.json`). -/
structure District where
  name : String
  total : Int := 0
  missing : Int := 0
  coverage : Int := 0
deriving Repr, DecidableEq

/-- What a `fetch` of the districts file can come back as: a network error
(the promise rejects), or a response with an HTTP ok flag and a body whose
JSON parse may itself fail. -/
inductive FetchOutcome where
  | netError
  | response (ok : Bool) (body : Except String (List District))
deriving Repr

/-- `fetchDistricts` (src/unnamed/part_005 lines 34-44): throws on a non-OK
response, but the surrounding `try/catch` logs any failure — network error,
non-OK status, or JSON parse error — and returns `[]`. -/
def fetchDistricts (r : FetchOutcome) : List District :=
  match r with
  | .netError => []
  | .response ok body =>
    if ok then
      match body with
      | .ok districts => districts
      | .error _ => []
    else []

/-- C8 counterexample: a failed fetch of the districts file is NOT reported
as a distinguishable error state: a non-OK response (even one carrying data)
returns the ordinary empty district list, the very value a legitimately
empty districts file returns, so the two are indistinguishable downstream. -/
theorem fetch_districts_counterexample :
    fetchDistricts (.response false (.ok [{ name := "Hannover", total := 10,
                                            missing := 4, coverage := 60 }])) = []
    ∧ fetchDistricts (.response true (.ok [])) = []
    ∧ fetchDistricts (.response false (.ok [{ name := "Hannover", total := 10,
                                              missing := 4, coverage := 60 }]))
        = fetchDistricts (.response true (.ok [])) :=
  ⟨rfl, rfl, rfl⟩

/-- C8 amended: every failed fetch of the districts file — network error,
non-OK response, or JSON parse failure — is silently swallowed into the
ordinary empty district list, the same value as a successful fetch of an
empty file, so failure is not distinguishable from legitimate empty data in
the returned value. -/
theorem fetch_districts_swallows_errors :
    (∀ body, fetchDistricts (.response false body) = [])
    ∧ fetchDistricts .netError = []
    ∧ (∀ e, fetchDistricts (.response true (.error e)) = [])
    ∧ fetchDistricts (.response true (.ok [])) = [] := by
  refine ⟨fun body => rfl, rfl, fun e => rfl, rfl⟩
